import Mathlib

/-!
# check_cloudwatch: a shallow embedding of `check_cloudwatch.go`

The program is a single-shot monitoring check.  It parses its flags, asks the
monitoring service for one metric, reads one statistic of the first datapoint
and compares it with two thresholds.  The external collaborators (credential
provider, service client, clock, region table) are inputs of the model.

Go values are modelled as follows.

* `string` is `String`.  The separator `=` is a single byte of UTF-8 that never
  occurs inside a longer sequence, so cutting at the character and cutting at the
  byte agree.
* `int` is the 64-bit `int` of the usual targets; `time.Duration` is `int64`
  nanoseconds, with wrap-around on overflow (`wrap64`).
* `float64` is `Float64`: NaN, the two infinities, and the finite values
  `(-1)^neg * mant * 2^exp`.  Every IEEE-754 double is such a value; the
  comparisons are the IEEE-754 ones (every comparison with NaN is false).
* `time.Time` is an `Int` count of nanoseconds.
* a function that calls `os.Exit` returns the `Exit` it ends the process with.
-/

namespace CheckCloudwatch

/-! ## float64 -/

/-- Values of Go's `float64`, up to the choice of mantissa and exponent. -/
inductive Float64 where
  | nan : Float64
  | inf (neg : Bool) : Float64
  | fin (neg : Bool) (mant : Nat) (exp : Int) : Float64
  deriving DecidableEq, Repr

namespace Float64

/-- The value is one an IEEE-754 double can hold (53-bit mantissa, exponent range). -/
def isDouble : Float64 → Bool
  | nan => true
  | inf _ => true
  | fin _ m e => decide (m < 2 ^ 53) && decide (-1074 ≤ e) && decide (e ≤ 971)

def isNaN : Float64 → Bool
  | nan => true
  | _ => false

/-- Signed mantissa of a finite value. -/
def smant (neg : Bool) (m : Nat) : Int := if neg then -(m : Int) else (m : Int)

/-- Signed mantissa of `s * 2^e` rescaled to the exponent `min e e'`. -/
def scaled (s : Int) (e e' : Int) : Int := s * 2 ^ (e - min e e').toNat

/-- Go's `a < b` on `float64`. -/
def lt : Float64 → Float64 → Bool
  | nan, _ => false
  | _, nan => false
  | inf n₁, inf n₂ => n₁ && !n₂
  | inf n, fin _ _ _ => n
  | fin _ _ _, inf n => !n
  | fin n₁ m₁ e₁, fin n₂ m₂ e₂ =>
      decide (scaled (smant n₁ m₁) e₁ e₂ < scaled (smant n₂ m₂) e₂ e₁)

/-- Go's `a <= b` on `float64`. -/
def le : Float64 → Float64 → Bool
  | nan, _ => false
  | _, nan => false
  | inf n₁, inf n₂ => n₁ || !n₂
  | inf n, fin _ _ _ => n
  | fin _ _ _, inf n => !n
  | fin n₁ m₁ e₁, fin n₂ m₂ e₂ =>
      decide (scaled (smant n₁ m₁) e₁ e₂ ≤ scaled (smant n₂ m₂) e₂ e₁)

/-- Go's `a > b` on `float64`. -/
def gt (a b : Float64) : Bool := lt b a

/-- Go's `a >= b` on `float64`. -/
def ge (a b : Float64) : Bool := le b a

/-- Go's `a == b` on `float64`. -/
def eq (a b : Float64) : Bool := le a b && le b a

/-- The rational number a finite value stands for. -/
def toRat (neg : Bool) (m : Nat) (e : Int) : ℚ := (smant neg m : ℚ) * (2 : ℚ) ^ e

/-- The place of a value on the extended rational line (NaN has none; it is sent to 0). -/
def val : Float64 → WithBot (WithTop ℚ)
  | nan => 0
  | inf true => ⊥
  | inf false => ((⊤ : WithTop ℚ) : WithBot (WithTop ℚ))
  | fin n m e => ((toRat n m e : WithTop ℚ) : WithBot (WithTop ℚ))

/-- The float64 of a natural number literal such as `70`. -/
def ofNat (n : Nat) : Float64 := fin false n 0

/-- Round the non-negative rational `num / den` to the nearest integer, ties to even. -/
def roundHalfEven (num den : Nat) : Nat :=
  let q := num / den
  let r := num % den
  if 2 * r > den ∨ (2 * r = den ∧ q % 2 = 1) then q + 1 else q

/-- The last `width` decimal digits of `n`, most significant first. -/
def fixedDigits : Nat → Nat → List Char
  | 0, _ => []
  | width + 1, n => fixedDigits width (n / 10) ++ [Nat.digitChar (n % 10)]

/-- The decimal digits of `n`, most significant first and without a leading zero;
`fuel` bounds their number. -/
def decimalFuel : Nat → Nat → List Char
  | 0, _ => []
  | fuel + 1, n =>
      if n < 10 then [Nat.digitChar n]
      else decimalFuel fuel (n / 10) ++ [Nat.digitChar (n % 10)]

/-- The decimal numeral of `n`. -/
def decimal (n : Nat) : List Char := decimalFuel (n + 1) n

/-- The text of Go's `%f` verb (precision 6) for a float64: the exact value
rounded to six decimals, ties to even; `NaN`, `+Inf`, `-Inf` for the others. -/
def formatF : Float64 → String
  | nan => "NaN"
  | inf false => "+Inf"
  | inf true => "-Inf"
  | fin neg m e =>
      let q := if 0 ≤ e then m * 2 ^ e.toNat * 10 ^ 6
               else roundHalfEven (m * 10 ^ 6) (2 ^ (-e).toNat)
      String.mk ((if neg then ['-'] else []) ++ decimal (q / 10 ^ 6) ++ ['.'] ++
        fixedDigits 6 (q % 10 ^ 6))

/-! ### What a fixed-point text with six decimals is

The definitions below do not come from the program: they say what it means for a
text to be the value of a float64 printed with six decimals, and `formatF` is
compared with them. -/

/-- The number a text of decimal digits stands for. -/
def decimalValue (cs : List Char) : Nat := cs.foldl (fun a c => 10 * a + (c.toNat - 48)) 0

/-- A decimal numeral: digits only, at least one, no leading zero except in `0`. -/
def IsNumeral (cs : List Char) : Prop :=
  cs ≠ [] ∧ (∀ c ∈ cs, c.isDigit = true) ∧ (cs = ['0'] ∨ cs.head? ≠ some '0')

/-- The text `s` is the value `v` in fixed-point form with six decimals: for a finite
value an optional `-`, a numeral, a point and six digits, which read as the integer
`q` of millionths nearest to the magnitude of `v` (the even one of two nearest);
`NaN`, `+Inf` and `-Inf` for the other values. -/
def IsFixed6 : Float64 → String → Prop
  | nan, s => s = "NaN"
  | inf false, s => s = "+Inf"
  | inf true, s => s = "-Inf"
  | fin neg m e, s =>
      ∃ (q : Nat) (ip fp : List Char),
        s = String.mk ((if neg then ['-'] else []) ++ ip ++ ['.'] ++ fp) ∧
        IsNumeral ip ∧ fp.length = 6 ∧ (∀ c ∈ fp, c.isDigit = true) ∧
        decimalValue ip * 10 ^ 6 + decimalValue fp = q ∧
        |(q : ℚ) - toRat false m e * 10 ^ 6| ≤ 1 / 2 ∧
        (|(q : ℚ) - toRat false m e * 10 ^ 6| = 1 / 2 → q % 2 = 0)

end Float64

/-! ## Go runtime and library pieces the program uses -/

/-- A Go run-time panic. -/
inductive Panic where
  | indexOutOfRange (index length : Nat) : Panic
  deriving DecidableEq, Repr

deriving instance DecidableEq for Except

/-- Go's `xs[i]`: the element, or the index-out-of-range panic. -/
def index {α : Type} (xs : List α) (i : Nat) : Except Panic α :=
  match xs[i]? with
  | some x => .ok x
  | none => .error (.indexOutOfRange i xs.length)

/-- Cut a text at the first occurrence of `sep`: the text before it and the text after it. -/
def cut (sep : Char) : List Char → Option (List Char × List Char)
  | [] => none
  | c :: cs =>
      if c = sep then some ([], cs)
      else (cut sep cs).map (fun p => (c :: p.1, p.2))

/-- The pieces of `strings.SplitN` for a one-character separator and `n ≥ 0`. -/
def splitN (sep : Char) : Nat → List Char → List (List Char)
  | 0, _ => []
  | 1, s => [s]
  | n + 2, s =>
      match cut sep s with
      | none => [s]
      | some (a, b) => a :: splitN sep (n + 1) b

/-- Go's `strings.SplitN(s, sep, n)` for a one-character separator and `n ≥ 0`. -/
def strings.SplitN (s : String) (sep : Char) (n : Nat) : List String :=
  (splitN sep n s.data).map String.mk

/-- Reduce an integer to the range of `int64` (two's complement wrap-around). -/
def wrap64 (x : Int) : Int := (x + 2 ^ 63) % 2 ^ 64 - 2 ^ 63

/-- Go's `time.Second`, in nanoseconds. -/
def time.Second : Int := 1000000000

/-- Go's `time.Duration(n)` for an `int`. -/
def time.Duration (n : Int) : Int := wrap64 n

/-- Multiplication of two `time.Duration` values. -/
def time.mul (a b : Int) : Int := wrap64 (a * b)

/-- Go's `t.Add(d)` on instants counted in nanoseconds. -/
def time.Add (t d : Int) : Int := t + d

/-! ## Data model -/

/-- The `cloudwatch.Dimension` of the client library. -/
structure Dimension where
  Name : String
  Value : String
  deriving DecidableEq, Repr

/-- The `aws.ServiceInfo` of the client library. -/
structure ServiceInfo where
  Endpoint : String
  Signer : Nat
  deriving DecidableEq, Repr

/-- The fields of `aws.Region` the program reads. -/
structure Region where
  Name : String
  CloudWatchServicepoint : ServiceInfo
  deriving DecidableEq, Repr

/-- Go's zero value `aws.Region{}`. -/
def Region.zero : Region := { Name := "", CloudWatchServicepoint := { Endpoint := "", Signer := 0 } }

/-- The `cloudwatch.Datapoint` of the client library. -/
structure Datapoint where
  Average : Float64
  Maximum : Float64
  Minimum : Float64
  SampleCount : Float64
  Sum : Float64
  Timestamp : Int
  Unit : String
  deriving DecidableEq, Repr

/-- The `cloudwatch.GetMetricStatisticsRequest` fields the program sets. -/
structure GetMetricStatisticsRequest where
  Namespace : String
  MetricName : String
  Dimensions : List Dimension
  StartTime : Int
  EndTime : Int
  Period : Int
  Statistics : List String
  deriving DecidableEq, Repr

/-- The `aws.Auth` credentials. -/
structure Auth where
  AccessKey : String
  SecretKey : String
  deriving DecidableEq, Repr

/-- The `cloudwatch.CloudWatch` client: the credentials and the service it talks to. -/
structure CloudWatch where
  auth : Auth
  service : ServiceInfo
  deriving DecidableEq, Repr

/-- The external collaborators of one run. -/
structure World where
  /-- Result of `aws.GetAuth("", "", "", time.Time{})`. -/
  GetAuth : Except String Auth
  /-- Result of `cloudwatch.NewCloudWatch`. -/
  NewCloudWatch : Auth → ServiceInfo → Except String CloudWatch
  /-- Result of `time.Now()`. -/
  Now : Int
  /-- Result of `client.GetMetricStatistics`: the datapoints of the response. -/
  GetMetricStatistics : CloudWatch → GetMetricStatisticsRequest → Except String (List Datapoint)
  /-- The table `aws.Regions`. -/
  Regions : String → Option Region

/-- The number of line ends in a text. -/
def newlines (s : String) : Nat := s.data.count '\n'

def OK : Nat := 0
def WARNING : Nat := 1
def CRITICAL : Nat := 2
def UNKNOWN : Nat := 3

structure options where
  criticalThreshold : Float64
  dimensions : List Dimension
  metricName : String
  «namespace» : String
  period : Int
  region : Region
  statistic : String
  warningThreshold : Float64
  deriving DecidableEq, Repr

/-- What a process that called `os.Exit` leaves behind: its standard output and exit code. -/
structure Exit where
  stdout : String
  code : Nat
  deriving DecidableEq, Repr

/-! ## The program -/

def ok (metricName message : String) : Exit :=
  { stdout := metricName ++ " OK - " ++ message ++ "\n", code := OK }

def warning (metricName message : String) : Exit :=
  { stdout := metricName ++ " WARNING - " ++ message ++ "\n", code := WARNING }

def critical (metricName message : String) : Exit :=
  { stdout := metricName ++ " CRITICAL - " ++ message ++ "\n", code := CRITICAL }

def unknown (metricName message : String) : Exit :=
  { stdout := metricName ++ " UNKNOWN - " ++ message ++ "\n", code := UNKNOWN }

/-- The method `(*dimensionsValue).Set`: the new dimension list and the returned error. -/
def dimensionsValue.Set (d : List Dimension) (value : String) :
    Except Panic (List Dimension × Option String) := do
  let nameValue := strings.SplitN value '=' 2
  let name ← index nameValue 0
  let val ← index nameValue 1
  let dimension : Dimension := { Name := name, Value := val }
  pure (d ++ [dimension], none)

/-- The method `(*regionValue).Set`: the new region and the returned error.
A missing key of a Go map reads as the zero value. -/
def regionValue.Set (Regions : String → Option Region) (_r : Region) (value : String) :
    Region × Option String :=
  ((Regions value).getD Region.zero, none)

def getData (datapoint : Datapoint) (statistic : String) : Float64 × Option String :=
  if statistic = "Minimum" then (datapoint.Minimum, none)
  else if statistic = "Maximum" then (datapoint.Maximum, none)
  else if statistic = "Sum" then (datapoint.Sum, none)
  else if statistic = "Average" then (datapoint.Average, none)
  else if statistic = "SampleCount" then (datapoint.SampleCount, none)
  else (Float64.ofNat 0, some ("Unknown statistic: " ++ statistic))

/-- The five statistic names `getData` knows. -/
def statistics : List String := ["Minimum", "Maximum", "Sum", "Average", "SampleCount"]

/-- One flag occurrence on the command line, its value already converted by the
`flag` package to the type the flag was declared with. -/
inductive FlagArg where
  | critical (x : Float64) : FlagArg
  | dimension (s : String) : FlagArg
  | metricName (s : String) : FlagArg
  | ns (s : String) : FlagArg
  | period (n : Int) : FlagArg
  | region (s : String) : FlagArg
  | statistic (s : String) : FlagArg
  | warning (x : Float64) : FlagArg
  deriving DecidableEq, Repr

/-- The options before any flag is read: the declared defaults. -/
def options.default : options :=
  { criticalThreshold := Float64.ofNat 0, dimensions := [], metricName := "", «namespace» := "",
    period := 60, region := Region.zero, statistic := "", warningThreshold := Float64.ofNat 0 }

/-- What `flag.Parse` does with one flag occurrence. -/
def setFlag (Regions : String → Option Region) (o : options) : FlagArg → Except Panic options
  | .critical x => pure { o with criticalThreshold := x }
  | .dimension s => do
      let r ← dimensionsValue.Set o.dimensions s
      pure { o with dimensions := r.1 }
  | .metricName s => pure { o with metricName := s }
  | .ns s => pure { o with «namespace» := s }
  | .period n => pure { o with period := n }
  | .region s => pure { o with region := (regionValue.Set Regions o.region s).1 }
  | .statistic s => pure { o with statistic := s }
  | .warning x => pure { o with warningThreshold := x }

def parseCommandLine (Regions : String → Option Region) (args : List FlagArg) :
    Except Panic options :=
  args.foldlM (setFlag Regions) options.default

/-- The request `main` builds at time `endTime` (lines 147 to 157). -/
def request (options : options) (endTime : Int) : GetMetricStatisticsRequest :=
  let startTime := time.Add endTime
    (time.mul (time.mul (-1) (time.Duration options.period)) time.Second)
  { Namespace := options.«namespace»
    MetricName := options.metricName
    Dimensions := options.dimensions
    StartTime := startTime
    EndTime := endTime
    Period := options.period
    Statistics := [options.statistic] }

/-- A finished run: the requests sent to the service, and how the process ended. -/
structure Run where
  sent : List GetMetricStatisticsRequest
  exit : Exit
  deriving DecidableEq, Repr

/-- The threshold comparison that ends `main` (lines 175 to 188). -/
def evaluate (metricName message : String) (data warningThreshold criticalThreshold : Float64) :
    Exit :=
  if Float64.gt criticalThreshold warningThreshold then
    if Float64.gt data criticalThreshold then
      critical metricName message
    else if Float64.gt data warningThreshold then
      warning metricName message
    else ok metricName message
  else
    if Float64.lt data criticalThreshold then
      critical metricName message
    else if Float64.lt data warningThreshold then
      warning metricName message
    else ok metricName message

/-- The body of `main` after `parseCommandLine` (lines 137 to 188). -/
def mainWith (w : World) (options : options) : Run :=
  match w.GetAuth with
  | .error err => { sent := [], exit := unknown options.metricName err }
  | .ok auth =>
  match w.NewCloudWatch auth options.region.CloudWatchServicepoint with
  | .error err => { sent := [], exit := unknown options.metricName err }
  | .ok client =>
  let endTime := w.Now
  let request := request options endTime
  match w.GetMetricStatistics client request with
  | .error err => { sent := [request], exit := unknown options.metricName err }
  | .ok datapoints =>
  match datapoints with
  | [] => { sent := [request], exit := unknown options.metricName "No datapoints" }
  | datapoint :: _ =>
  match getData datapoint options.statistic with
  | (_, some err) => { sent := [request], exit := unknown options.metricName err }
  | (data, none) =>
  let unit := datapoint.Unit
  let message := Float64.formatF data ++ " " ++ unit
  { sent := [request]
    exit := evaluate options.metricName message data
      options.warningThreshold options.criticalThreshold }

/-- The program: the flags are parsed, then the check runs.  A panic while
parsing ends the process before anything is sent or printed. -/
def main (w : World) (args : List FlagArg) : Except Panic Run :=
  (parseCommandLine w.Regions args).map (mainWith w)

/-! ## Sample inputs -/

/-- The float64 nearest to 95.2. -/
def f95_2 : Float64 := .fin false 6699104445713613 (-46)

def sampleDatapoint : Datapoint :=
  { Average := f95_2, Maximum := Float64.ofNat 99, Minimum := Float64.ofNat 80,
    SampleCount := Float64.ofNat 5, Sum := Float64.ofNat 476, Timestamp := 0, Unit := "Percent" }

def sampleRegions : String → Option Region := fun s =>
  if s = "us-east-1" then
    some { Name := "us-east-1",
           CloudWatchServicepoint :=
             { Endpoint := "https://monitoring.us-east-1.amazonaws.com", Signer := 2 } }
  else none

/-- A world in which every collaborator succeeds and the service answers `dps`. -/
def sampleWorld (dps : List Datapoint) : World :=
  { GetAuth := .ok { AccessKey := "key", SecretKey := "secret" }
    NewCloudWatch := fun a s => .ok { auth := a, service := s }
    Now := 1000000000000
    GetMetricStatistics := fun _ _ => .ok dps
    Regions := sampleRegions }

def sampleArgs : List FlagArg :=
  [.ns "AWS/EC2", .metricName "CPUUtilization", .statistic "Average",
   .warning (Float64.ofNat 70), .critical (Float64.ofNat 90)]

/-- The options `parseCommandLine` makes of `sampleArgs`. -/
def sampleOptions : options :=
  { criticalThreshold := Float64.ofNat 90, dimensions := [], metricName := "CPUUtilization",
    «namespace» := "AWS/EC2", period := 60, region := Region.zero, statistic := "Average",
    warningThreshold := Float64.ofNat 70 }

/-- A datapoint whose every statistic is `v`. -/
def constDatapoint (v : Float64) : Datapoint :=
  { Average := v, Maximum := v, Minimum := v, SampleCount := v, Sum := v,
    Timestamp := 0, Unit := "Percent" }

/-- Flags of a check with warning threshold `wt` and critical threshold `ct`. -/
def thresholdArgs (wt ct : Float64) : List FlagArg :=
  [.metricName "Metric", .statistic "Average", .warning wt, .critical ct]

/-- The options `parseCommandLine` makes of `thresholdArgs wt ct`. -/
def thresholdOptions (wt ct : Float64) : options :=
  { options.default with
    metricName := "Metric", statistic := "Average", warningThreshold := wt,
    criticalThreshold := ct }

/-- A world in which the credential provider fails. -/
def noAuthWorld : World := { sampleWorld [] with GetAuth := .error "No valid AWS authentication found" }

/-- A world in which the client cannot be made. -/
def noClientWorld : World :=
  { sampleWorld [] with NewCloudWatch := fun _ _ => .error "Invalid service endpoint" }

/-- A world in which the service call fails. -/
def noServiceWorld : World :=
  { sampleWorld [] with GetMetricStatistics := fun _ _ => .error "Service Unavailable" }

/-! ## The order of float64 values -/

namespace Float64

theorem scaled_cast (s e e' : Int) :
    ((scaled s e e' : Int) : ℚ) = (s : ℚ) * (2 : ℚ) ^ e / (2 : ℚ) ^ (min e e') := by
  have h : 0 ≤ e - min e e' := by have := min_le_left e e'; omega
  unfold scaled
  push_cast
  rw [← zpow_natCast, Int.toNat_of_nonneg h, zpow_sub₀ (by norm_num : (2 : ℚ) ≠ 0)]
  ring

theorem scaled_lt_iff (s₁ s₂ e₁ e₂ : Int) :
    scaled s₁ e₁ e₂ < scaled s₂ e₂ e₁ ↔ (s₁ : ℚ) * (2 : ℚ) ^ e₁ < (s₂ : ℚ) * (2 : ℚ) ^ e₂ := by
  have hpos : (0 : ℚ) < (2 : ℚ) ^ (min e₁ e₂) := zpow_pos (by norm_num) _
  rw [← Int.cast_lt (R := ℚ), scaled_cast, scaled_cast, min_comm e₂ e₁,
    div_lt_div_iff_of_pos_right hpos]

theorem scaled_le_iff (s₁ s₂ e₁ e₂ : Int) :
    scaled s₁ e₁ e₂ ≤ scaled s₂ e₂ e₁ ↔ (s₁ : ℚ) * (2 : ℚ) ^ e₁ ≤ (s₂ : ℚ) * (2 : ℚ) ^ e₂ := by
  have hpos : (0 : ℚ) < (2 : ℚ) ^ (min e₁ e₂) := zpow_pos (by norm_num) _
  rw [← Int.cast_le (R := ℚ), scaled_cast, scaled_cast, min_comm e₂ e₁,
    div_le_div_iff_of_pos_right hpos]

theorem val_fin_lt_fin (n₁ n₂ : Bool) (m₁ m₂ : Nat) (e₁ e₂ : Int) :
    val (fin n₁ m₁ e₁) < val (fin n₂ m₂ e₂) ↔ toRat n₁ m₁ e₁ < toRat n₂ m₂ e₂ := by
  simp only [val, WithBot.coe_lt_coe, WithTop.coe_lt_coe]

theorem val_fin_le_fin (n₁ n₂ : Bool) (m₁ m₂ : Nat) (e₁ e₂ : Int) :
    val (fin n₁ m₁ e₁) ≤ val (fin n₂ m₂ e₂) ↔ toRat n₁ m₁ e₁ ≤ toRat n₂ m₂ e₂ := by
  simp only [val, WithBot.coe_le_coe, WithTop.coe_le_coe]

theorem val_fin_lt_top (n : Bool) (m : Nat) (e : Int) : val (fin n m e) < val (inf false) := by
  simp only [val, WithBot.coe_lt_coe]
  exact WithTop.coe_lt_top _

theorem val_bot_lt_fin (n : Bool) (m : Nat) (e : Int) : val (inf true) < val (fin n m e) := by
  simp only [val]
  exact WithBot.bot_lt_coe _

theorem val_bot_lt_top : val (inf true) < val (inf false) := by
  simp only [val]
  exact WithBot.bot_lt_coe _

theorem lt_iff (a b : Float64) :
    lt a b = true ↔ a ≠ nan ∧ b ≠ nan ∧ val a < val b := by
  cases a with
  | nan => simp [lt]
  | inf n₁ =>
    cases b with
    | nan => simp [lt]
    | inf n₂ =>
      cases n₁ <;> cases n₂ <;> simp [lt, val_bot_lt_top, not_lt_of_gt val_bot_lt_top]
    | fin n₂ m₂ e₂ =>
      cases n₁ <;> simp [lt, val_bot_lt_fin, not_lt_of_gt (val_fin_lt_top _ _ _)]
  | fin n₁ m₁ e₁ =>
    cases b with
    | nan => simp [lt]
    | inf n₂ =>
      cases n₂ <;> simp [lt, val_fin_lt_top, not_lt_of_gt (val_bot_lt_fin _ _ _)]
    | fin n₂ m₂ e₂ =>
      simp only [lt, decide_eq_true_eq, scaled_lt_iff, val_fin_lt_fin, toRat, ne_eq,
        not_false_eq_true, true_and, reduceCtorEq]

theorem le_iff (a b : Float64) :
    le a b = true ↔ a ≠ nan ∧ b ≠ nan ∧ val a ≤ val b := by
  cases a with
  | nan => simp [le]
  | inf n₁ =>
    cases b with
    | nan => simp [le]
    | inf n₂ =>
      cases n₁ <;> cases n₂ <;> simp [le, le_of_lt val_bot_lt_top, not_le_of_gt val_bot_lt_top]
    | fin n₂ m₂ e₂ =>
      cases n₁ <;>
        simp [le, le_of_lt (val_bot_lt_fin _ _ _), not_le_of_gt (val_fin_lt_top _ _ _)]
  | fin n₁ m₁ e₁ =>
    cases b with
    | nan => simp [le]
    | inf n₂ =>
      cases n₂ <;>
        simp [le, le_of_lt (val_fin_lt_top _ _ _), not_le_of_gt (val_bot_lt_fin _ _ _)]
    | fin n₂ m₂ e₂ =>
      simp only [le, decide_eq_true_eq, scaled_le_iff, val_fin_le_fin, toRat, ne_eq,
        not_false_eq_true, true_and, reduceCtorEq]

theorem gt_iff (a b : Float64) :
    gt a b = true ↔ a ≠ nan ∧ b ≠ nan ∧ val b < val a := by
  unfold gt
  rw [lt_iff]
  tauto

theorem ge_iff (a b : Float64) :
    ge a b = true ↔ a ≠ nan ∧ b ≠ nan ∧ val b ≤ val a := by
  unfold ge
  rw [le_iff]
  tauto

/-- Every comparison with NaN on the left is false. -/
theorem nan_cmp (b : Float64) :
    lt nan b = false ∧ le nan b = false ∧ gt nan b = false ∧ ge nan b = false := by
  cases b <;> simp [lt, le, gt, ge]

end Float64

/-! ## The sample values are doubles -/

/-- The values used in the examples are IEEE-754 doubles. -/
theorem sample_values_are_doubles :
    Float64.isDouble Float64.nan = true ∧ Float64.isDouble f95_2 = true ∧
    Float64.isDouble (Float64.ofNat 9) = true ∧ Float64.isDouble (Float64.ofNat 10) = true ∧
    Float64.isDouble (Float64.ofNat 11) = true ∧ Float64.isDouble (Float64.ofNat 15) = true ∧
    Float64.isDouble (Float64.ofNat 20) = true ∧ Float64.isDouble (Float64.ofNat 70) = true ∧
    Float64.isDouble (Float64.ofNat 90) = true := by
  decide

/-- The sample value `f95_2` is the double nearest to 95.2: its mantissa has 53 bits and
it lies within half a unit in the last place (`2^-47`) of 95.2. -/
theorem f95_2_nearest :
    2 ^ 52 ≤ 6699104445713613 ∧ 6699104445713613 < 2 ^ 53 ∧
    |Float64.toRat false 6699104445713613 (-46) - 952 / 10| < (2 : ℚ) ^ (-47 : Int) := by
  refine ⟨by norm_num, by norm_num, ?_⟩
  rw [abs_lt]
  constructor <;> norm_num [Float64.toRat, Float64.smant]

/-! ## Runs that reach the threshold comparison -/

theorem main_of_parse (w : World) (args : List FlagArg) (o : options)
    (hP : parseCommandLine w.Regions args = .ok o) :
    main w args = .ok (mainWith w o) := by
  simp [main, hP, Except.map]

theorem mainWith_evaluated (w : World) (o : options) (auth : Auth) (client : CloudWatch)
    (dp : Datapoint) (rest : List Datapoint) (v : Float64)
    (hA : w.GetAuth = .ok auth)
    (hC : w.NewCloudWatch auth o.region.CloudWatchServicepoint = .ok client)
    (hF : w.GetMetricStatistics client (request o w.Now) = .ok (dp :: rest))
    (hD : getData dp o.statistic = (v, none)) :
    mainWith w o =
      { sent := [request o w.Now]
        exit := evaluate o.metricName (Float64.formatF v ++ " " ++ dp.Unit) v
          o.warningThreshold o.criticalThreshold } := by
  simp [mainWith, hA, hC, hF, hD]

theorem evaluate_code (name msg : String) (v wt ct : Float64) :
    (evaluate name msg v wt ct).code =
      if Float64.gt ct wt = true then
        if Float64.gt v ct = true then CRITICAL
        else if Float64.gt v wt = true then WARNING else OK
      else
        if Float64.lt v ct = true then CRITICAL
        else if Float64.lt v wt = true then WARNING else OK := by
  unfold evaluate
  split_ifs <;> rfl

/-- The comparison in the higher-is-worse direction, for a value that is not NaN. -/
theorem evaluate_higher (name msg : String) (v wt ct : Float64)
    (hcw : Float64.gt ct wt = true) (hv : v ≠ Float64.nan) :
    ((evaluate name msg v wt ct).code = CRITICAL ↔ Float64.gt v ct = true) ∧
    ((evaluate name msg v wt ct).code = WARNING ↔
      Float64.lt wt v = true ∧ Float64.le v ct = true) ∧
    ((evaluate name msg v wt ct).code = OK ↔ Float64.le v wt = true) := by
  rw [evaluate_code, if_pos hcw]
  obtain ⟨hc, hw, hlt⟩ := (Float64.gt_iff ct wt).1 hcw
  simp only [Float64.gt_iff, Float64.lt_iff, Float64.le_iff, ne_eq, hv, hc, hw,
    not_false_eq_true, true_and]
  by_cases h1 : Float64.val ct < Float64.val v
  · have h2 : ¬ Float64.val v ≤ Float64.val ct := not_le.2 h1
    have h3 : ¬ Float64.val v ≤ Float64.val wt := not_le.2 (lt_trans hlt h1)
    simp [h1, h2, h3, CRITICAL, WARNING, OK]
  · have h2 : Float64.val v ≤ Float64.val ct := not_lt.1 h1
    by_cases h4 : Float64.val wt < Float64.val v
    · have h5 : ¬ Float64.val v ≤ Float64.val wt := not_le.2 h4
      simp [h1, h2, h4, h5, CRITICAL, WARNING, OK]
    · have h5 : Float64.val v ≤ Float64.val wt := not_lt.1 h4
      simp [h1, h4, h5, CRITICAL, WARNING, OK]

/-- The comparison in the lower-is-worse direction, for a value that is not NaN. -/
theorem evaluate_lower (name msg : String) (v wt ct : Float64)
    (hcw : Float64.le ct wt = true) (hv : v ≠ Float64.nan) :
    ((evaluate name msg v wt ct).code = CRITICAL ↔ Float64.lt v ct = true) ∧
    ((evaluate name msg v wt ct).code = WARNING ↔
      Float64.le ct v = true ∧ Float64.lt v wt = true) ∧
    ((evaluate name msg v wt ct).code = OK ↔ Float64.ge v wt = true) := by
  obtain ⟨hc, hw, hle⟩ := (Float64.le_iff ct wt).1 hcw
  have hng : ¬ Float64.gt ct wt = true := by
    rw [Float64.gt_iff]
    exact fun h => absurd h.2.2 (not_lt.2 hle)
  rw [evaluate_code, if_neg hng]
  simp only [Float64.ge_iff, Float64.lt_iff, Float64.le_iff, ne_eq, hv, hc, hw,
    not_false_eq_true, true_and]
  by_cases h1 : Float64.val v < Float64.val ct
  · have h2 : ¬ Float64.val ct ≤ Float64.val v := not_le.2 h1
    have h3 : ¬ Float64.val wt ≤ Float64.val v := not_le.2 (lt_of_lt_of_le h1 hle)
    simp [h1, h2, h3, CRITICAL, WARNING, OK]
  · have h2 : Float64.val ct ≤ Float64.val v := not_lt.1 h1
    by_cases h4 : Float64.val v < Float64.val wt
    · have h5 : ¬ Float64.val wt ≤ Float64.val v := not_le.2 h4
      simp [h1, h2, h4, h5, CRITICAL, WARNING, OK]
    · have h5 : Float64.val wt ≤ Float64.val v := not_lt.1 h4
      simp [h1, h4, h5, CRITICAL, WARNING, OK]

/-- With equal thresholds only the strict comparison with the critical threshold matters. -/
theorem evaluate_tie (name msg : String) (v wt ct : Float64)
    (h : wt = ct ∨ Float64.eq wt ct = true) :
    (Float64.lt v ct = true → (evaluate name msg v wt ct).code = CRITICAL) ∧
    (Float64.lt v ct = false → (evaluate name msg v wt ct).code = OK) ∧
    (evaluate name msg v wt ct).code ≠ WARNING := by
  have hng : ¬ Float64.gt ct wt = true := by
    rw [Float64.gt_iff]
    rcases h with h | h
    · subst h
      exact fun h => absurd h.2.2 (lt_irrefl _)
    · simp only [Float64.eq, Bool.and_eq_true, Float64.le_iff] at h
      exact fun h' => absurd h'.2.2 (not_lt.2 h.2.2.2)
  have hsame : Float64.lt v wt = Float64.lt v ct := by
    rcases h with h | h
    · rw [h]
    · simp only [Float64.eq, Bool.and_eq_true, Float64.le_iff] at h
      have hval : Float64.val wt = Float64.val ct := le_antisymm h.1.2.2 h.2.2.2
      rw [Bool.eq_iff_iff, Float64.lt_iff, Float64.lt_iff, hval]
      simp [h.1.1, h.1.2.1]
  rw [evaluate_code, if_neg hng, hsame]
  cases Float64.lt v ct <;> simp [CRITICAL, WARNING, OK]

/-! ## The dimension parser -/

theorem cut_none (sep : Char) (s : List Char) (h : sep ∉ s) : cut sep s = none := by
  induction s with
  | nil => rfl
  | cons c cs ih =>
    have hc : c ≠ sep := fun hc => h (by simp [hc])
    have hcs : sep ∉ cs := fun hcs => h (by simp [hcs])
    simp [cut, hc, ih hcs]

theorem cut_some (sep : Char) (s : List Char) (h : sep ∈ s) :
    ∃ a b, cut sep s = some (a, b) ∧ s = a ++ sep :: b ∧ sep ∉ a := by
  induction s with
  | nil => simp at h
  | cons c cs ih =>
    by_cases hc : c = sep
    · exact ⟨[], cs, by simp [cut, hc], by simp [hc], by simp⟩
    · have hcs : sep ∈ cs := by
        rcases List.mem_cons.1 h with h | h
        · exact absurd h.symm hc
        · exact h
      obtain ⟨a, b, h1, h2, h3⟩ := ih hcs
      refine ⟨c :: a, b, by simp [cut, hc, h1], by simp [h2], ?_⟩
      intro hmem
      rcases List.mem_cons.1 hmem with h | h
      · exact hc h.symm
      · exact h3 h

/-- A value without the separator makes `Set` index past the end of the split. -/
theorem Set_without_separator (d : List Dimension) (value : String)
    (h : '=' ∉ value.data) :
    dimensionsValue.Set d value = .error (.indexOutOfRange 1 1) := by
  simp [dimensionsValue.Set, strings.SplitN, splitN, cut_none _ _ h, index, bind, Except.bind]

theorem Set_with_separator (d : List Dimension) (value : String) (a b : List Char)
    (h : cut '=' value.data = some (a, b)) :
    dimensionsValue.Set d value =
      .ok (d ++ [{ Name := String.mk a, Value := String.mk b }], none) := by
  simp [dimensionsValue.Set, strings.SplitN, splitN, h, index, bind, Except.bind, pure,
    Except.pure]

/-! ## Threshold evaluation in `main` -/

/-- C1, amended: in a run of `main` that reaches the threshold comparison with a
critical threshold greater than the warning threshold and an extracted value `v`
that is not NaN, the status is CRITICAL iff `v > c`, WARNING iff `w < v <= c`,
and OK iff `v <= w`. -/
theorem main_higher_is_worse (w : World) (args : List FlagArg) (o : options) (auth : Auth)
    (client : CloudWatch) (dp : Datapoint) (rest : List Datapoint) (v : Float64)
    (hP : parseCommandLine w.Regions args = .ok o)
    (hA : w.GetAuth = .ok auth)
    (hC : w.NewCloudWatch auth o.region.CloudWatchServicepoint = .ok client)
    (hF : w.GetMetricStatistics client (request o w.Now) = .ok (dp :: rest))
    (hD : getData dp o.statistic = (v, none))
    (hcw : Float64.gt o.criticalThreshold o.warningThreshold = true)
    (hv : v ≠ Float64.nan) :
    ∃ r, main w args = .ok r ∧
      (r.exit.code = CRITICAL ↔ Float64.gt v o.criticalThreshold = true) ∧
      (r.exit.code = WARNING ↔
        Float64.lt o.warningThreshold v = true ∧ Float64.le v o.criticalThreshold = true) ∧
      (r.exit.code = OK ↔ Float64.le v o.warningThreshold = true) := by
  refine ⟨_, main_of_parse w args o hP, ?_⟩
  rw [mainWith_evaluated w o auth client dp rest v hA hC hF hD]
  exact evaluate_higher _ _ v _ _ hcw hv

/-- The amended C1 at warning 70, critical 90 and the value 95.2: the run is CRITICAL. -/
theorem main_higher_is_worse_witness :
    Float64.gt sampleOptions.criticalThreshold sampleOptions.warningThreshold = true ∧
    ∃ r, main (sampleWorld [sampleDatapoint]) sampleArgs = .ok r ∧
      (r.exit.code = CRITICAL ↔ Float64.gt f95_2 sampleOptions.criticalThreshold = true) ∧
      (r.exit.code = WARNING ↔
        Float64.lt sampleOptions.warningThreshold f95_2 = true ∧
        Float64.le f95_2 sampleOptions.criticalThreshold = true) ∧
      (r.exit.code = OK ↔ Float64.le f95_2 sampleOptions.warningThreshold = true) :=
  ⟨by decide,
   main_higher_is_worse (sampleWorld [sampleDatapoint]) sampleArgs sampleOptions
    { AccessKey := "key", SecretKey := "secret" }
    { auth := { AccessKey := "key", SecretKey := "secret" },
      service := Region.zero.CloudWatchServicepoint }
    sampleDatapoint [] f95_2 (by decide) (by decide) (by decide) (by decide) (by decide)
    (by decide) (by decide)⟩

/-- C1 as stated fails for a NaN value: with warning 70 and critical 90 (so `c > w`)
the run whose datapoint is NaN ends OK, although `v <= w` is false. -/
theorem main_higher_is_worse_counterexample :
    Float64.gt (Float64.ofNat 90) (Float64.ofNat 70) = true ∧
    getData (constDatapoint Float64.nan) "Average" = (Float64.nan, none) ∧
    ∃ r, main (sampleWorld [constDatapoint Float64.nan]) sampleArgs = .ok r ∧
      r.exit.code = OK ∧
      Float64.le Float64.nan (Float64.ofNat 70) = false ∧
      ¬ (r.exit.code = OK ↔ Float64.le Float64.nan (Float64.ofNat 70) = true) :=
  ⟨by decide, by decide,
   mainWith (sampleWorld [constDatapoint Float64.nan]) sampleOptions,
   by decide, by decide, by decide, by decide⟩

/-- C2, amended: in a run of `main` that reaches the threshold comparison with a
critical threshold less than or equal to the warning threshold and an extracted
value `v` that is not NaN, the status is CRITICAL iff `v < c`, WARNING iff
`c <= v < w`, and OK iff `v >= w`. -/
theorem main_lower_is_worse (w : World) (args : List FlagArg) (o : options) (auth : Auth)
    (client : CloudWatch) (dp : Datapoint) (rest : List Datapoint) (v : Float64)
    (hP : parseCommandLine w.Regions args = .ok o)
    (hA : w.GetAuth = .ok auth)
    (hC : w.NewCloudWatch auth o.region.CloudWatchServicepoint = .ok client)
    (hF : w.GetMetricStatistics client (request o w.Now) = .ok (dp :: rest))
    (hD : getData dp o.statistic = (v, none))
    (hcw : Float64.le o.criticalThreshold o.warningThreshold = true)
    (hv : v ≠ Float64.nan) :
    ∃ r, main w args = .ok r ∧
      (r.exit.code = CRITICAL ↔ Float64.lt v o.criticalThreshold = true) ∧
      (r.exit.code = WARNING ↔
        Float64.le o.criticalThreshold v = true ∧ Float64.lt v o.warningThreshold = true) ∧
      (r.exit.code = OK ↔ Float64.ge v o.warningThreshold = true) := by
  refine ⟨_, main_of_parse w args o hP, ?_⟩
  rw [mainWith_evaluated w o auth client dp rest v hA hC hF hD]
  exact evaluate_lower _ _ v _ _ hcw hv

/-- The amended C2 at warning 20, critical 10 and the value 15: the run is WARNING. -/
theorem main_lower_is_worse_witness :
    Float64.le (Float64.ofNat 10) (Float64.ofNat 20) = true ∧
    ∃ r, main (sampleWorld [constDatapoint (Float64.ofNat 15)])
        (thresholdArgs (Float64.ofNat 20) (Float64.ofNat 10)) = .ok r ∧
      (r.exit.code = CRITICAL ↔ Float64.lt (Float64.ofNat 15) (Float64.ofNat 10) = true) ∧
      (r.exit.code = WARNING ↔
        Float64.le (Float64.ofNat 10) (Float64.ofNat 15) = true ∧
        Float64.lt (Float64.ofNat 15) (Float64.ofNat 20) = true) ∧
      (r.exit.code = OK ↔ Float64.ge (Float64.ofNat 15) (Float64.ofNat 20) = true) :=
  ⟨by decide,
   main_lower_is_worse (sampleWorld [constDatapoint (Float64.ofNat 15)])
    (thresholdArgs (Float64.ofNat 20) (Float64.ofNat 10))
    (thresholdOptions (Float64.ofNat 20) (Float64.ofNat 10))
    { AccessKey := "key", SecretKey := "secret" }
    { auth := { AccessKey := "key", SecretKey := "secret" },
      service := Region.zero.CloudWatchServicepoint }
    (constDatapoint (Float64.ofNat 15)) [] (Float64.ofNat 15)
    (by decide) (by decide) (by decide) (by decide) (by decide) (by decide) (by decide)⟩

/-- C2 as stated fails for a NaN value: with warning 20 and critical 10 (so `c <= w`)
the run whose datapoint is NaN ends OK, although `v >= w` is false. -/
theorem main_lower_is_worse_counterexample :
    Float64.le (Float64.ofNat 10) (Float64.ofNat 20) = true ∧
    getData (constDatapoint Float64.nan) "Average" = (Float64.nan, none) ∧
    ∃ r, main (sampleWorld [constDatapoint Float64.nan])
        (thresholdArgs (Float64.ofNat 20) (Float64.ofNat 10)) = .ok r ∧
      r.exit.code = OK ∧
      Float64.ge Float64.nan (Float64.ofNat 20) = false ∧
      ¬ (r.exit.code = OK ↔ Float64.ge Float64.nan (Float64.ofNat 20) = true) :=
  ⟨by decide, by decide,
   mainWith (sampleWorld [constDatapoint Float64.nan])
    (thresholdOptions (Float64.ofNat 20) (Float64.ofNat 10)),
   by decide, by decide, by decide, by decide⟩

/-- C3: in a run of `main` that reaches the threshold comparison with equal warning
and critical thresholds, the status is CRITICAL when `v < c` and OK otherwise, never
WARNING; with both thresholds 10 the values 9, 10 and 11 give CRITICAL, OK and OK. -/
theorem main_tie (w : World) (args : List FlagArg) (o : options) (auth : Auth)
    (client : CloudWatch) (dp : Datapoint) (rest : List Datapoint) (v : Float64)
    (hP : parseCommandLine w.Regions args = .ok o)
    (hA : w.GetAuth = .ok auth)
    (hC : w.NewCloudWatch auth o.region.CloudWatchServicepoint = .ok client)
    (hF : w.GetMetricStatistics client (request o w.Now) = .ok (dp :: rest))
    (hD : getData dp o.statistic = (v, none))
    (htie : o.warningThreshold = o.criticalThreshold ∨
      Float64.eq o.warningThreshold o.criticalThreshold = true) :
    (∃ r, main w args = .ok r ∧
      (Float64.lt v o.criticalThreshold = true → r.exit.code = CRITICAL) ∧
      (Float64.lt v o.criticalThreshold = false → r.exit.code = OK) ∧
      r.exit.code ≠ WARNING) ∧
    (main (sampleWorld [constDatapoint (Float64.ofNat 9)])
        (thresholdArgs (Float64.ofNat 10) (Float64.ofNat 10))).map (fun r => r.exit.code)
      = .ok CRITICAL ∧
    (main (sampleWorld [constDatapoint (Float64.ofNat 10)])
        (thresholdArgs (Float64.ofNat 10) (Float64.ofNat 10))).map (fun r => r.exit.code)
      = .ok OK ∧
    (main (sampleWorld [constDatapoint (Float64.ofNat 11)])
        (thresholdArgs (Float64.ofNat 10) (Float64.ofNat 10))).map (fun r => r.exit.code)
      = .ok OK := by
  refine ⟨⟨_, main_of_parse w args o hP, ?_⟩, by decide, by decide, by decide⟩
  rw [mainWith_evaluated w o auth client dp rest v hA hC hF hD]
  exact evaluate_tie _ _ v _ _ htie

/-- C3 at thresholds 10 and 10 and the value 9: the run is CRITICAL. -/
theorem main_tie_witness :
    Float64.eq (Float64.ofNat 10) (Float64.ofNat 10) = true ∧
    ∃ r, main (sampleWorld [constDatapoint (Float64.ofNat 9)])
        (thresholdArgs (Float64.ofNat 10) (Float64.ofNat 10)) = .ok r ∧
      (Float64.lt (Float64.ofNat 9) (Float64.ofNat 10) = true → r.exit.code = CRITICAL) ∧
      (Float64.lt (Float64.ofNat 9) (Float64.ofNat 10) = false → r.exit.code = OK) ∧
      r.exit.code ≠ WARNING :=
  ⟨by decide,
   (main_tie (sampleWorld [constDatapoint (Float64.ofNat 9)])
    (thresholdArgs (Float64.ofNat 10) (Float64.ofNat 10))
    (thresholdOptions (Float64.ofNat 10) (Float64.ofNat 10))
    { AccessKey := "key", SecretKey := "secret" }
    { auth := { AccessKey := "key", SecretKey := "secret" },
      service := Region.zero.CloudWatchServicepoint }
    (constDatapoint (Float64.ofNat 9)) [] (Float64.ofNat 9)
    (by decide) (by decide) (by decide) (by decide) (by decide) (Or.inl (by decide))).1⟩

/-! ## The text of a float64 -/

namespace Float64

theorem digitChar_spec :
    ∀ d, d < 10 → (Nat.digitChar d).isDigit = true ∧ (Nat.digitChar d).toNat - 48 = d ∧
      (d ≠ 0 → Nat.digitChar d ≠ '0') := by
  decide

theorem decimalValue_snoc (cs : List Char) (c : Char) :
    decimalValue (cs ++ [c]) = 10 * decimalValue cs + (c.toNat - 48) := by
  simp [decimalValue, List.foldl_append]

theorem fixedDigits_spec (width : Nat) :
    ∀ n, (fixedDigits width n).length = width ∧
      (∀ c ∈ fixedDigits width n, c.isDigit = true) ∧
      decimalValue (fixedDigits width n) = n % 10 ^ width := by
  induction width with
  | zero =>
    intro n
    simp [fixedDigits, decimalValue, Nat.mod_one]
  | succ w ih =>
    intro n
    obtain ⟨h₁, h₂, h₃⟩ := ih (n / 10)
    have hd := digitChar_spec (n % 10) (Nat.mod_lt _ (by decide))
    refine ⟨by simp [fixedDigits, h₁], ?_, ?_⟩
    · intro c hc
      simp only [fixedDigits, List.mem_append, List.mem_singleton] at hc
      rcases hc with hc | hc
      · exact h₂ c hc
      · rw [hc]
        exact hd.1
    · simp only [fixedDigits]
      rw [decimalValue_snoc, h₃, hd.2.1, pow_succ, Nat.mul_comm (10 ^ w) 10, Nat.mod_mul]
      omega

theorem decimalFuel_spec (fuel : Nat) :
    ∀ n, n < fuel → IsNumeral (decimalFuel fuel n) ∧ decimalValue (decimalFuel fuel n) = n := by
  induction fuel with
  | zero =>
    intro n h
    omega
  | succ f ih =>
    intro n h
    by_cases hn : n < 10
    · have hd := digitChar_spec n hn
      simp only [decimalFuel, if_pos hn]
      refine ⟨⟨by simp, ?_, ?_⟩, ?_⟩
      · intro c hc
        rw [List.mem_singleton.1 hc]
        exact hd.1
      · by_cases h0 : n = 0
        · left
          rw [h0]
          rfl
        · right
          simpa using hd.2.2 h0
      · simpa [decimalValue] using hd.2.1
    · have hd := digitChar_spec (n % 10) (Nat.mod_lt _ (by decide))
      obtain ⟨⟨hne, hdig, hlead⟩, hval⟩ := ih (n / 10) (by omega)
      simp only [decimalFuel, if_neg hn]
      refine ⟨⟨by simp, ?_, ?_⟩, ?_⟩
      · intro c hc
        rcases List.mem_append.1 hc with hc | hc
        · exact hdig c hc
        · rw [List.mem_singleton.1 hc]
          exact hd.1
      · right
        rcases hlead with hz | hz
        · exfalso
          rw [hz] at hval
          have : decimalValue ['0'] = 0 := by decide
          omega
        · cases hxs : decimalFuel f (n / 10) with
          | nil => exact absurd hxs hne
          | cons x xs =>
            rw [hxs] at hz
            simpa using hz
      · rw [decimalValue_snoc, hval, hd.2.1]
        omega

theorem decimal_spec (n : Nat) : IsNumeral (decimal n) ∧ decimalValue (decimal n) = n :=
  decimalFuel_spec (n + 1) n (Nat.lt_succ_self n)

/-- The rounded quotient is a nearest integer, and the even one at a tie. -/
theorem roundHalfEven_spec (num den : Nat) (hden : 0 < den) :
    |(roundHalfEven num den : ℚ) - (num : ℚ) / (den : ℚ)| ≤ 1 / 2 ∧
    (|(roundHalfEven num den : ℚ) - (num : ℚ) / (den : ℚ)| = 1 / 2 →
      roundHalfEven num den % 2 = 0) := by
  have hdq : (0 : ℚ) < (den : ℚ) := by exact_mod_cast hden
  have hnum : (num : ℚ) = (den : ℚ) * ((num / den : Nat) : ℚ) + ((num % den : Nat) : ℚ) := by
    exact_mod_cast (Nat.div_add_mod num den).symm
  have hr : ((num % den : Nat) : ℚ) < (den : ℚ) := by exact_mod_cast Nat.mod_lt num hden
  have hr0 : (0 : ℚ) ≤ ((num % den : Nat) : ℚ) := by positivity
  have hx : (num : ℚ) / (den : ℚ) =
      ((num / den : Nat) : ℚ) + ((num % den : Nat) : ℚ) / (den : ℚ) := by
    rw [hnum]
    field_simp
    ring
  have ht1 : ((num % den : Nat) : ℚ) / (den : ℚ) < 1 := (div_lt_one hdq).2 hr
  have ht0 : 0 ≤ ((num % den : Nat) : ℚ) / (den : ℚ) := div_nonneg hr0 (le_of_lt hdq)
  unfold roundHalfEven
  simp only
  by_cases hc : 2 * (num % den) > den ∨ (2 * (num % den) = den ∧ num / den % 2 = 1)
  · rw [if_pos hc, hx]
    push_cast
    have hge : (1 : ℚ) / 2 ≤ ((num % den : Nat) : ℚ) / (den : ℚ) := by
      rw [le_div_iff₀ hdq]
      have : den ≤ 2 * (num % den) := by omega
      have : ((den : Nat) : ℚ) ≤ 2 * ((num % den : Nat) : ℚ) := by exact_mod_cast this
      linarith
    constructor
    · rw [abs_le]
      constructor <;> linarith
    · intro habs
      rcases hc with hc | hc
      · exfalso
        have hgt : (1 : ℚ) / 2 < ((num % den : Nat) : ℚ) / (den : ℚ) := by
          rw [lt_div_iff₀ hdq]
          have : ((den : Nat) : ℚ) < 2 * ((num % den : Nat) : ℚ) := by exact_mod_cast hc
          linarith
        rw [abs_of_nonneg (by linarith)] at habs
        linarith
      · omega
  · rw [if_neg hc, hx]
    have hle : ((num % den : Nat) : ℚ) / (den : ℚ) ≤ 1 / 2 := by
      rw [div_le_iff₀ hdq]
      have : 2 * (num % den) ≤ den := by omega
      have : 2 * ((num % den : Nat) : ℚ) ≤ ((den : Nat) : ℚ) := by exact_mod_cast this
      linarith
    constructor
    · rw [abs_le]
      constructor <;> linarith
    · intro habs
      rw [abs_of_nonpos (by linarith)] at habs
      have heq : 2 * ((num % den : Nat) : ℚ) = ((den : Nat) : ℚ) := by
        have h2 : ((num % den : Nat) : ℚ) / (den : ℚ) = 1 / 2 := by linarith
        rw [div_eq_iff (ne_of_gt hdq)] at h2
        linarith
      have heqn : 2 * (num % den) = den := by exact_mod_cast heq
      omega

/-- The text `formatF` gives is the fixed-point text with six decimals of the value. -/
theorem formatF_spec (v : Float64) : IsFixed6 v (formatF v) := by
  cases v with
  | nan => rfl
  | inf n => cases n <;> rfl
  | fin neg m e =>
    simp only [IsFixed6, formatF]
    by_cases he : 0 ≤ e
    · rw [if_pos he]
      have hq : ((m * 2 ^ e.toNat * 10 ^ 6 : Nat) : ℚ) - toRat false m e * 10 ^ 6 = 0 := by
        simp only [toRat, smant, Bool.false_eq_true, if_false, Int.cast_natCast]
        have h2 : (2 : ℚ) ^ e = (2 : ℚ) ^ e.toNat := by
          rw [← zpow_natCast, Int.toNat_of_nonneg he]
        rw [h2]
        push_cast
        ring
      refine ⟨m * 2 ^ e.toNat * 10 ^ 6, decimal (m * 2 ^ e.toNat * 10 ^ 6 / 10 ^ 6),
        fixedDigits 6 (m * 2 ^ e.toNat * 10 ^ 6 % 10 ^ 6), rfl, (decimal_spec _).1,
        (fixedDigits_spec 6 _).1, (fixedDigits_spec 6 _).2.1, ?_, ?_, ?_⟩
      · rw [(decimal_spec _).2, (fixedDigits_spec 6 _).2.2, Nat.mod_mod]
        exact Nat.div_add_mod' _ _
      · rw [hq]
        norm_num
      · rw [hq]
        norm_num
    · rw [if_neg he]
      have hden : 0 < 2 ^ (-e).toNat := pow_pos (by decide) _
      have hz : toRat false m e * 10 ^ 6 =
          ((m * 10 ^ 6 : Nat) : ℚ) / ((2 ^ (-e).toNat : Nat) : ℚ) := by
        simp only [toRat, smant, Bool.false_eq_true, if_false, Int.cast_natCast]
        have h2 : (2 : ℚ) ^ e = ((2 : ℚ) ^ (-e).toNat)⁻¹ := by
          rw [← zpow_natCast, Int.toNat_of_nonneg (by omega), zpow_neg, inv_inv]
        rw [h2]
        push_cast
        field_simp
        left
        norm_num
      have hs := roundHalfEven_spec (m * 10 ^ 6) (2 ^ (-e).toNat) hden
      rw [← hz] at hs
      refine ⟨roundHalfEven (m * 10 ^ 6) (2 ^ (-e).toNat), decimal _, fixedDigits 6 _, rfl,
        (decimal_spec _).1, (fixedDigits_spec 6 _).1, (fixedDigits_spec 6 _).2.1, ?_, hs.1,
        hs.2⟩
      rw [(decimal_spec _).2, (fixedDigits_spec 6 _).2.2, Nat.mod_mod]
      exact Nat.div_add_mod' _ _

theorem isDigit_ne_newline (c : Char) (h : c.isDigit = true) : c ≠ '\n' := by
  intro hc
  rw [hc] at h
  exact absurd h (by decide)

/-- The text of a float64 has no line end in it. -/
theorem formatF_no_newline (v : Float64) : '\n' ∉ (formatF v).data := by
  cases v with
  | nan => decide
  | inf n => cases n <;> decide
  | fin neg m e =>
    simp only [formatF]
    intro h
    simp only [List.mem_append, List.mem_singleton] at h
    rcases h with ((h | h) | h) | h
    · cases neg <;> simp at h
    · exact isDigit_ne_newline _ ((decimal_spec _).1.2.1 _ h) rfl
    · exact absurd h (by decide)
    · exact isDigit_ne_newline _ ((fixedDigits_spec 6 _).2.1 _ h) rfl

end Float64

/-! ## The status reporter -/

/-- Texts without a line end, put around a status word and ended by one line end, make
one line. -/
theorem newlines_line (metricName status message : String)
    (hw : '\n' ∉ status.data) (hn : '\n' ∉ metricName.data) (hm : '\n' ∉ message.data) :
    newlines (metricName ++ status ++ message ++ "\n") = 1 := by
  simp [newlines, String.data_append, List.count_append, List.count_eq_zero_of_not_mem hw,
    List.count_eq_zero_of_not_mem hn, List.count_eq_zero_of_not_mem hm]

/-- C4, amended: each of `ok`, `warning`, `critical`, `unknown` writes exactly the text
`<metricName> <STATUS> - <message>` followed by a line end and exits with the code of
its status (0, 1, 2, 3); this is exactly one line whenever the metric name and the
message have no line end in them.  A run that reaches the threshold comparison reports
through `ok`, `warning` or `critical` with the message `<value> <unit>`, where the value
is printed in fixed-point form with six decimals, and prints one line when the metric
name and the unit have no line end.  The CPUUtilization example prints
`CPUUtilization CRITICAL - 95.200000 Percent` and exits with code 2. -/
theorem status_reporter (metricName message : String) :
    ok metricName message = { stdout := metricName ++ " OK - " ++ message ++ "\n", code := 0 } ∧
    warning metricName message =
      { stdout := metricName ++ " WARNING - " ++ message ++ "\n", code := 1 } ∧
    critical metricName message =
      { stdout := metricName ++ " CRITICAL - " ++ message ++ "\n", code := 2 } ∧
    unknown metricName message =
      { stdout := metricName ++ " UNKNOWN - " ++ message ++ "\n", code := 3 } ∧
    ('\n' ∉ metricName.data → '\n' ∉ message.data →
      newlines (ok metricName message).stdout = 1 ∧
      newlines (warning metricName message).stdout = 1 ∧
      newlines (critical metricName message).stdout = 1 ∧
      newlines (unknown metricName message).stdout = 1) ∧
    (∀ v : Float64, Float64.IsFixed6 v (Float64.formatF v)) ∧
    (∀ (w : World) (args : List FlagArg) (o : options) (auth : Auth) (client : CloudWatch)
        (dp : Datapoint) (rest : List Datapoint) (v : Float64),
      parseCommandLine w.Regions args = .ok o →
      w.GetAuth = .ok auth →
      w.NewCloudWatch auth o.region.CloudWatchServicepoint = .ok client →
      w.GetMetricStatistics client (request o w.Now) = .ok (dp :: rest) →
      getData dp o.statistic = (v, none) →
      ∃ r, main w args = .ok r ∧
        (r.exit = ok o.metricName (Float64.formatF v ++ " " ++ dp.Unit) ∨
         r.exit = warning o.metricName (Float64.formatF v ++ " " ++ dp.Unit) ∨
         r.exit = critical o.metricName (Float64.formatF v ++ " " ++ dp.Unit)) ∧
        ('\n' ∉ o.metricName.data → '\n' ∉ dp.Unit.data → newlines r.exit.stdout = 1)) ∧
    (main (sampleWorld [sampleDatapoint]) sampleArgs).map (fun r => r.exit) =
      .ok { stdout := "CPUUtilization CRITICAL - 95.200000 Percent\n", code := 2 } := by
  refine ⟨rfl, rfl, rfl, rfl, ?_, Float64.formatF_spec, ?_, by decide⟩
  · intro hn hm
    exact ⟨newlines_line _ _ _ (by decide) hn hm, newlines_line _ _ _ (by decide) hn hm,
      newlines_line _ _ _ (by decide) hn hm, newlines_line _ _ _ (by decide) hn hm⟩
  · intro w args o auth client dp rest v hP hA hC hF hD
    refine ⟨_, main_of_parse w args o hP, ?_, ?_⟩
    · rw [mainWith_evaluated w o auth client dp rest v hA hC hF hD]
      unfold evaluate
      split_ifs <;> simp
    · intro hn hu
      have hm : '\n' ∉ (Float64.formatF v ++ " " ++ dp.Unit).data := by
        simp only [String.data_append, List.mem_append, not_or]
        exact ⟨⟨Float64.formatF_no_newline v, by decide⟩, hu⟩
      rw [mainWith_evaluated w o auth client dp rest v hA hC hF hD]
      unfold evaluate
      split_ifs
      all_goals first
        | exact newlines_line _ " OK - " _ (by decide) hn hm
        | exact newlines_line _ " WARNING - " _ (by decide) hn hm
        | exact newlines_line _ " CRITICAL - " _ (by decide) hn hm

/-- The amended C4 at the CPUUtilization example: the four helpers print one line for
the name `CPUUtilization` and the message `95.200000 Percent`, and the run reports
through `critical` with the message `95.200000 Percent`, in one line. -/
theorem status_reporter_witness :
    (newlines (ok "CPUUtilization" "95.200000 Percent").stdout = 1 ∧
     newlines (warning "CPUUtilization" "95.200000 Percent").stdout = 1 ∧
     newlines (critical "CPUUtilization" "95.200000 Percent").stdout = 1 ∧
     newlines (unknown "CPUUtilization" "95.200000 Percent").stdout = 1) ∧
    ∃ r, main (sampleWorld [sampleDatapoint]) sampleArgs = .ok r ∧
      (r.exit = ok "CPUUtilization" (Float64.formatF f95_2 ++ " " ++ "Percent") ∨
       r.exit = warning "CPUUtilization" (Float64.formatF f95_2 ++ " " ++ "Percent") ∨
       r.exit = critical "CPUUtilization" (Float64.formatF f95_2 ++ " " ++ "Percent")) ∧
      ('\n' ∉ "CPUUtilization".data → '\n' ∉ "Percent".data → newlines r.exit.stdout = 1) :=
  ⟨(status_reporter "CPUUtilization" "95.200000 Percent").2.2.2.2.1 (by decide) (by decide),
   (status_reporter "CPUUtilization" "95.200000 Percent").2.2.2.2.2.2.1
    (sampleWorld [sampleDatapoint]) sampleArgs sampleOptions
    { AccessKey := "key", SecretKey := "secret" }
    { auth := { AccessKey := "key", SecretKey := "secret" },
      service := Region.zero.CloudWatchServicepoint }
    sampleDatapoint [] f95_2 (by decide) (by decide) (by decide) (by decide) (by decide)⟩

/-- C4 as stated fails for a metric name with a line end in it: `critical` on the name
`a`, line end, `b` prints two lines, and so does the run of `main` whose `-metric-name`
is `CPU`, line end, `Utilization`. -/
theorem status_reporter_counterexample :
    (critical "a\nb" "x").stdout = "a\nb CRITICAL - x\n" ∧
    newlines (critical "a\nb" "x").stdout = 2 ∧
    (main (sampleWorld [sampleDatapoint])
        (sampleArgs ++ [FlagArg.metricName "CPU\nUtilization"])).map
        (fun r => (r.exit.stdout, newlines r.exit.stdout, r.exit.code)) =
      .ok ("CPU\nUtilization CRITICAL - 95.200000 Percent\n", 2, 2) := by
  refine ⟨by decide, by decide, by decide⟩

/-! ## The dimension parser, claims -/

/-- C5, what the code does: `Set` on `badtoken` (no `=`) panics with an index out of
range instead of returning an error, and a command line carrying that flag ends in
the same panic before anything is printed. -/
theorem Set_badtoken_panics :
    dimensionsValue.Set [] "badtoken" = .error (.indexOutOfRange 1 1) ∧
    main (sampleWorld [sampleDatapoint]) (sampleArgs ++ [.dimension "badtoken"]) =
      .error (.indexOutOfRange 1 1) := by
  constructor <;> decide

/-- C6: for a value that contains `=`, `Set` succeeds and appends exactly one dimension
at the end; its name is the text before the first `=` (so it has no `=`), its value is
all the text after it, and name, `=`, value put together give the input back.  Setting
`Host=web1` and then `Env=prod` on the empty set gives `[(Host,web1),(Env,prod)]`. -/
theorem Set_accepts (d : List Dimension) (s : String) (h : '=' ∈ s.data) :
    (∃ name value : String,
      dimensionsValue.Set d s = .ok (d ++ [{ Name := name, Value := value }], none) ∧
      s = name ++ "=" ++ value ∧ '=' ∉ name.data) ∧
    (dimensionsValue.Set [] "Host=web1" >>= fun r => dimensionsValue.Set r.1 "Env=prod") =
      .ok ([{ Name := "Host", Value := "web1" }, { Name := "Env", Value := "prod" }], none) ∧
    (parseCommandLine sampleRegions [.dimension "Host=web1", .dimension "Env=prod"]).map
        (fun o => o.dimensions) =
      .ok [{ Name := "Host", Value := "web1" }, { Name := "Env", Value := "prod" }] := by
  refine ⟨?_, by decide, by decide⟩
  obtain ⟨a, b, h1, h2, h3⟩ := cut_some '=' s.data h
  refine ⟨String.mk a, String.mk b, Set_with_separator d s a b h1, ?_, h3⟩
  apply String.ext
  simp [h2]

/-- C6 at `a=b=c` on a set that already holds one dimension: the name is `a`, the
value is `b=c`. -/
theorem Set_accepts_witness :
    '=' ∈ "a=b=c".data ∧
    dimensionsValue.Set [{ Name := "Host", Value := "web1" }] "a=b=c" =
      .ok ([{ Name := "Host", Value := "web1" }, { Name := "a", Value := "b=c" }], none) ∧
    ∃ name value : String,
      dimensionsValue.Set [{ Name := "Host", Value := "web1" }] "a=b=c" =
        .ok ([{ Name := "Host", Value := "web1" }] ++ [{ Name := name, Value := value }], none) ∧
      "a=b=c" = name ++ "=" ++ value ∧ '=' ∉ name.data :=
  ⟨by decide, by decide,
   (Set_accepts [{ Name := "Host", Value := "web1" }] "a=b=c" (by decide)).1⟩

/-! ## The statistic selector -/

theorem getData_unknown (dp : Datapoint) (s : String) (h : s ∉ statistics) :
    getData dp s = (Float64.ofNat 0, some ("Unknown statistic: " ++ s)) := by
  simp only [statistics, List.mem_cons, List.mem_singleton, not_or, List.mem_nil_iff,
    or_false] at h
  simp [getData, h]

/-- C7: `getData` returns the Minimum, Maximum, Sum, Average or SampleCount field without
error for exactly these five names, and returns an error iff the name is none of them
(as for `Median`); the error text names the statistic. -/
theorem getData_spec (dp : Datapoint) (s : String) :
    getData dp "Minimum" = (dp.Minimum, none) ∧
    getData dp "Maximum" = (dp.Maximum, none) ∧
    getData dp "Sum" = (dp.Sum, none) ∧
    getData dp "Average" = (dp.Average, none) ∧
    getData dp "SampleCount" = (dp.SampleCount, none) ∧
    ((getData dp s).2 ≠ none ↔ s ∉ statistics) ∧
    (getData dp s).2 =
      (if s ∈ statistics then none else some ("Unknown statistic: " ++ s)) ∧
    (getData dp "Median").2 = some "Unknown statistic: Median" := by
  refine ⟨by simp [getData], by simp [getData], by simp [getData], by simp [getData],
    by simp [getData], ?_, ?_, by simp [getData]⟩
  · by_cases h : s ∈ statistics
    · simp only [statistics, List.mem_cons, List.mem_singleton, List.mem_nil_iff,
        or_false] at h
      rcases h with h | h | h | h | h <;> subst h <;> simp [getData, statistics]
    · simp [getData_unknown dp s h, h]
  · by_cases h : s ∈ statistics
    · rw [if_pos h]
      simp only [statistics, List.mem_cons, List.mem_singleton, List.mem_nil_iff,
        or_false] at h
      rcases h with h | h | h | h | h <;> subst h <;> simp [getData]
    · simp [getData_unknown dp s h, h]

/-! ## Failure reporting -/

/-- An unrecognized statistic never gets past `mainWith`: every path ends in `unknown`. -/
theorem mainWith_unknown_statistic (w : World) (o : options) (h : o.statistic ∉ statistics) :
    (mainWith w o).exit.code = UNKNOWN := by
  unfold mainWith
  cases w.GetAuth with
  | error e => rfl
  | ok auth =>
    simp only
    cases w.NewCloudWatch auth o.region.CloudWatchServicepoint with
    | error e => rfl
    | ok client =>
      simp only
      cases w.GetMetricStatistics client (request o w.Now) with
      | error e => rfl
      | ok dps =>
        cases dps with
        | nil => rfl
        | cons dp rest =>
          simp only [getData_unknown dp o.statistic h]
          rfl

/-- C8: after the flags are parsed, a run in which the credential provider fails, the
client cannot be made, the fetch fails, the fetch returns no datapoints, or the
statistic is not recognized prints `<metricName> UNKNOWN - <error text>` and exits
with code 3; for an empty datapoint list the text is `No datapoints`. -/
theorem main_failure (w : World) (args : List FlagArg) (o : options)
    (hP : parseCommandLine w.Regions args = .ok o) :
    (∀ e, w.GetAuth = .error e →
      main w args = .ok
        { sent := [],
          exit := { stdout := o.metricName ++ " UNKNOWN - " ++ e ++ "\n", code := 3 } }) ∧
    (∀ auth e, w.GetAuth = .ok auth →
      w.NewCloudWatch auth o.region.CloudWatchServicepoint = .error e →
      main w args = .ok
        { sent := [],
          exit := { stdout := o.metricName ++ " UNKNOWN - " ++ e ++ "\n", code := 3 } }) ∧
    (∀ auth client e, w.GetAuth = .ok auth →
      w.NewCloudWatch auth o.region.CloudWatchServicepoint = .ok client →
      w.GetMetricStatistics client (request o w.Now) = .error e →
      main w args = .ok
        { sent := [request o w.Now],
          exit := { stdout := o.metricName ++ " UNKNOWN - " ++ e ++ "\n", code := 3 } }) ∧
    (∀ auth client, w.GetAuth = .ok auth →
      w.NewCloudWatch auth o.region.CloudWatchServicepoint = .ok client →
      w.GetMetricStatistics client (request o w.Now) = .ok [] →
      main w args = .ok
        { sent := [request o w.Now],
          exit := { stdout := o.metricName ++ " UNKNOWN - " ++ "No datapoints" ++ "\n",
                    code := 3 } }) ∧
    (∀ auth client dp rest, w.GetAuth = .ok auth →
      w.NewCloudWatch auth o.region.CloudWatchServicepoint = .ok client →
      w.GetMetricStatistics client (request o w.Now) = .ok (dp :: rest) →
      o.statistic ∉ statistics →
      main w args = .ok
        { sent := [request o w.Now],
          exit := { stdout := o.metricName ++ " UNKNOWN - " ++
                    ("Unknown statistic: " ++ o.statistic) ++ "\n",
                    code := 3 } }) ∧
    (o.statistic ∉ statistics → ∃ r, main w args = .ok r ∧ r.exit.code = 3) := by
  rw [main_of_parse w args o hP]
  refine ⟨?_, ?_, ?_, ?_, ?_, ?_⟩
  · intro e hA
    simp [mainWith, hA, unknown, UNKNOWN]
  · intro auth e hA hC
    simp [mainWith, hA, hC, unknown, UNKNOWN]
  · intro auth client e hA hC hF
    simp [mainWith, hA, hC, hF, unknown, UNKNOWN]
  · intro auth client hA hC hF
    simp [mainWith, hA, hC, hF, unknown, UNKNOWN]
  · intro auth client dp rest hA hC hF hS
    simp [mainWith, hA, hC, hF, getData_unknown dp o.statistic hS, unknown, UNKNOWN]
  · intro hS
    exact ⟨_, rfl, mainWith_unknown_statistic w o hS⟩

/-- C8 at five failing runs, one for each kind of failure. -/
theorem main_failure_witness :
    main noAuthWorld sampleArgs = .ok
      { sent := [],
        exit := { stdout := "CPUUtilization UNKNOWN - No valid AWS authentication found\n",
                  code := 3 } } ∧
    main noClientWorld sampleArgs = .ok
      { sent := [],
        exit := { stdout := "CPUUtilization UNKNOWN - Invalid service endpoint\n",
                  code := 3 } } ∧
    (main noServiceWorld sampleArgs).map (fun r => r.exit) =
      .ok { stdout := "CPUUtilization UNKNOWN - Service Unavailable\n", code := 3 } ∧
    (main (sampleWorld []) sampleArgs).map (fun r => r.exit) =
      .ok { stdout := "CPUUtilization UNKNOWN - No datapoints\n", code := 3 } ∧
    (main (sampleWorld [sampleDatapoint]) (sampleArgs ++ [.statistic "Median"])).map
        (fun r => r.exit) =
      .ok { stdout := "CPUUtilization UNKNOWN - Unknown statistic: Median\n", code := 3 } :=
  ⟨(main_failure noAuthWorld sampleArgs sampleOptions (by decide)).1
      "No valid AWS authentication found" (by decide),
   (main_failure noClientWorld sampleArgs sampleOptions (by decide)).2.1
      { AccessKey := "key", SecretKey := "secret" } "Invalid service endpoint"
      (by decide) (by decide),
   by
    rw [(main_failure noServiceWorld sampleArgs sampleOptions (by decide)).2.2.1
      { AccessKey := "key", SecretKey := "secret" }
      { auth := { AccessKey := "key", SecretKey := "secret" },
        service := Region.zero.CloudWatchServicepoint }
      "Service Unavailable" (by decide) (by decide) (by decide)]
    decide,
   by
    rw [(main_failure (sampleWorld []) sampleArgs sampleOptions (by decide)).2.2.2.1
      { AccessKey := "key", SecretKey := "secret" }
      { auth := { AccessKey := "key", SecretKey := "secret" },
        service := Region.zero.CloudWatchServicepoint }
      (by decide) (by decide) (by decide)]
    decide,
   by
    rw [(main_failure (sampleWorld [sampleDatapoint])
      (sampleArgs ++ [FlagArg.statistic "Median"])
      { sampleOptions with statistic := "Median" } (by decide)).2.2.2.2.1
      { AccessKey := "key", SecretKey := "secret" }
      { auth := { AccessKey := "key", SecretKey := "secret" },
        service := Region.zero.CloudWatchServicepoint }
      sampleDatapoint [] (by decide) (by decide) (by decide) (by decide)]
    decide⟩

/-! ## The query builder -/

theorem wrap64_of_range (x : Int) (h₁ : -9223372036854775808 ≤ x)
    (h₂ : x ≤ 9223372036854775807) : wrap64 x = x := by
  unfold wrap64
  have h : (x + 2 ^ 63) % 2 ^ 64 = x + 2 ^ 63 :=
    Int.emod_eq_of_lt (by norm_num; omega) (by norm_num; omega)
  rw [h]
  ring

theorem wrap64_range (x : Int) :
    -9223372036854775808 ≤ wrap64 x ∧ wrap64 x ≤ 9223372036854775807 := by
  unfold wrap64
  have h₁ : 0 ≤ (x + 2 ^ 63) % 2 ^ 64 := Int.emod_nonneg _ (by norm_num)
  have h₂ : (x + 2 ^ 63) % 2 ^ 64 < 2 ^ 64 := Int.emod_lt_of_pos _ (by norm_num)
  norm_num at h₂ ⊢
  omega

/-- The start time is the end time minus `period` seconds exactly when the number of
nanoseconds fits in a `time.Duration`. -/
theorem request_StartTime (o : options) (t : Int) :
    (request o t).StartTime = t - o.period * 1000000000 ↔
      -9223372036 ≤ o.period ∧ o.period ≤ 9223372036 := by
  simp only [request, time.Add, time.mul, time.Duration, time.Second]
  constructor
  · intro h
    have hr := wrap64_range (wrap64 (-1 * wrap64 o.period) * 1000000000)
    omega
  · rintro ⟨h₁, h₂⟩
    rw [wrap64_of_range o.period (by omega) (by omega),
      wrap64_of_range (-1 * o.period) (by omega) (by omega),
      wrap64_of_range (-1 * o.period * 1000000000) (by omega) (by omega)]
    ring

theorem mainWith_sent (w : World) (o : options) (auth : Auth) (client : CloudWatch)
    (hA : w.GetAuth = .ok auth)
    (hC : w.NewCloudWatch auth o.region.CloudWatchServicepoint = .ok client) :
    (mainWith w o).sent = [request o w.Now] := by
  simp only [mainWith, hA, hC]
  cases w.GetMetricStatistics client (request o w.Now) with
  | error e => rfl
  | ok dps =>
    cases dps with
    | nil => rfl
    | cons dp rest =>
      simp only
      split <;> rfl

theorem setFlag_period (R : String → Option Region) (o o' : options) (a : FlagArg)
    (h : setFlag R o a = .ok o') (hp : ∀ n, a ≠ FlagArg.period n) : o'.period = o.period := by
  cases a with
  | period n => exact absurd rfl (hp n)
  | dimension s =>
    simp only [setFlag, bind, Except.bind] at h
    cases hd : dimensionsValue.Set o.dimensions s with
    | error e => simp [hd] at h
    | ok r =>
      simp only [hd, pure, Except.pure, Except.ok.injEq] at h
      rw [← h]
  | critical x => simp only [setFlag, pure, Except.pure, Except.ok.injEq] at h; rw [← h]
  | metricName x => simp only [setFlag, pure, Except.pure, Except.ok.injEq] at h; rw [← h]
  | ns x => simp only [setFlag, pure, Except.pure, Except.ok.injEq] at h; rw [← h]
  | region x => simp only [setFlag, pure, Except.pure, Except.ok.injEq] at h; rw [← h]
  | statistic x => simp only [setFlag, pure, Except.pure, Except.ok.injEq] at h; rw [← h]
  | warning x => simp only [setFlag, pure, Except.pure, Except.ok.injEq] at h; rw [← h]

theorem foldlM_period (R : String → Option Region) (args : List FlagArg) :
    ∀ (init o : options), args.foldlM (setFlag R) init = .ok o →
      (∀ n, FlagArg.period n ∉ args) → o.period = init.period := by
  induction args with
  | nil =>
    intro init o h _
    simp only [List.foldlM, pure, Except.pure, Except.ok.injEq] at h
    rw [h]
  | cons a rest ih =>
    intro init o h hp
    simp only [List.foldlM, bind, Except.bind] at h
    cases ha : setFlag R init a with
    | error e => simp [ha] at h
    | ok o₁ =>
      simp only [ha] at h
      have h₁ := ih o₁ o h (fun n hn => hp n (List.mem_cons_of_mem _ hn))
      have h₂ := setFlag_period R init o₁ a ha
        (fun n hn => hp n (by rw [hn]; exact List.mem_cons_self _ _))
      rw [h₁, h₂]

/-- Without a `-period` flag the period is the declared default, 60. -/
theorem parseCommandLine_period (R : String → Option Region) (args : List FlagArg)
    (o : options) (h : parseCommandLine R args = .ok o)
    (hp : ∀ n, FlagArg.period n ∉ args) : o.period = 60 :=
  foldlM_period R args options.default o h hp

/-- C9, amended: once the credentials and the client are there, `main` sends exactly one
request; its end time is the current time, it carries the period unchanged, and
namespace, metric name and dimension list as parsed, and its statistics list is the one
requested statistic; its start time is the end time minus `period` seconds exactly when
`period` is between -9223372036 and 9223372036 (the seconds whose nanoseconds fit in a
64-bit duration); the period is 60 when no `-period` flag is given. -/
theorem main_request (w : World) (args : List FlagArg) (o : options) (auth : Auth)
    (client : CloudWatch)
    (hP : parseCommandLine w.Regions args = .ok o)
    (hA : w.GetAuth = .ok auth)
    (hC : w.NewCloudWatch auth o.region.CloudWatchServicepoint = .ok client) :
    ∃ r q, main w args = .ok r ∧ r.sent = [q] ∧
      q.EndTime = w.Now ∧
      (q.StartTime = w.Now - o.period * 1000000000 ↔
        -9223372036 ≤ o.period ∧ o.period ≤ 9223372036) ∧
      q.Period = o.period ∧
      q.Namespace = o.«namespace» ∧
      q.MetricName = o.metricName ∧
      q.Dimensions = o.dimensions ∧
      q.Statistics = [o.statistic] ∧
      ((∀ n, FlagArg.period n ∉ args) → o.period = 60) :=
  ⟨mainWith w o, request o w.Now, main_of_parse w args o hP, mainWith_sent w o auth client hA hC,
   rfl, request_StartTime o w.Now, rfl, rfl, rfl, rfl, rfl,
   parseCommandLine_period w.Regions args o hP⟩

/-- The amended C9 at the CPUUtilization example, default period 60: the request
covers the 60 seconds before the current time. -/
theorem main_request_witness :
    ∃ r q, main (sampleWorld [sampleDatapoint]) sampleArgs = .ok r ∧ r.sent = [q] ∧
      q.EndTime = 1000000000000 ∧
      (q.StartTime = 1000000000000 - 60 * 1000000000 ↔
        -9223372036 ≤ (60 : Int) ∧ (60 : Int) ≤ 9223372036) ∧
      q.Period = 60 ∧
      q.Namespace = "AWS/EC2" ∧
      q.MetricName = "CPUUtilization" ∧
      q.Dimensions = [] ∧
      q.Statistics = ["Average"] ∧
      ((∀ n, FlagArg.period n ∉ sampleArgs) → (60 : Int) = 60) :=
  main_request (sampleWorld [sampleDatapoint]) sampleArgs sampleOptions
    { AccessKey := "key", SecretKey := "secret" }
    { auth := { AccessKey := "key", SecretKey := "secret" },
      service := Region.zero.CloudWatchServicepoint }
    (by decide) (by decide) (by decide)

/-- C9 as stated fails for a very large period: with `-period 9223372037` the product
with `time.Second` wraps around, and the start time of the request is not the end time
minus 9223372037 seconds; it lies after the end time. -/
theorem main_request_counterexample :
    ∃ r q, main (sampleWorld [sampleDatapoint]) (sampleArgs ++ [.period 9223372037]) = .ok r ∧
      r.sent = [q] ∧
      q.Period = 9223372037 ∧
      q.EndTime = 1000000000000 ∧
      q.StartTime = 1000000000000 + 9223372036709551616 ∧
      q.StartTime ≠ q.EndTime - 9223372037 * 1000000000 :=
  ⟨mainWith (sampleWorld [sampleDatapoint]) { sampleOptions with period := 9223372037 },
   request { sampleOptions with period := 9223372037 } 1000000000000,
   by decide, by decide, by decide, by decide, by decide, by decide⟩

/-! ## The region resolver -/

/-- C10: `regionValue.Set` returns no error for every identifier; for a key of the region
table the stored descriptor is the table entry, and for any other identifier it is the
zero descriptor (empty name, empty endpoint), whatever was stored before. -/
theorem regionValue_Set_spec (Regions : String → Option Region) (r : Region)
    (value : String) :
    (regionValue.Set Regions r value).2 = none ∧
    (∀ entry, Regions value = some entry → (regionValue.Set Regions r value).1 = entry) ∧
    (Regions value = none →
      (regionValue.Set Regions r value).1 = Region.zero ∧
      (regionValue.Set Regions r value).1.Name = "" ∧
      (regionValue.Set Regions r value).1.CloudWatchServicepoint.Endpoint = "") := by
  refine ⟨rfl, ?_, ?_⟩
  · intro entry h
    simp [regionValue.Set, h]
  · intro h
    simp [regionValue.Set, h, Region.zero]

/-- C10 on the sample table: `us-east-1` resolves to its entry, and `mars-1` replaces
a stored descriptor by the zero descriptor. -/
theorem regionValue_Set_witness :
    (regionValue.Set sampleRegions Region.zero "us-east-1").1 =
      { Name := "us-east-1",
        CloudWatchServicepoint :=
          { Endpoint := "https://monitoring.us-east-1.amazonaws.com", Signer := 2 } } ∧
    ((regionValue.Set sampleRegions
        { Name := "us-east-1",
          CloudWatchServicepoint :=
            { Endpoint := "https://monitoring.us-east-1.amazonaws.com", Signer := 2 } }
        "mars-1").1 = Region.zero ∧
     (regionValue.Set sampleRegions
        { Name := "us-east-1",
          CloudWatchServicepoint :=
            { Endpoint := "https://monitoring.us-east-1.amazonaws.com", Signer := 2 } }
        "mars-1").1.Name = "" ∧
     (regionValue.Set sampleRegions
        { Name := "us-east-1",
          CloudWatchServicepoint :=
            { Endpoint := "https://monitoring.us-east-1.amazonaws.com", Signer := 2 } }
        "mars-1").1.CloudWatchServicepoint.Endpoint = "") :=
  ⟨(regionValue_Set_spec sampleRegions Region.zero "us-east-1").2.1 _ (by decide),
   (regionValue_Set_spec sampleRegions _ "mars-1").2.2 (by decide)⟩

end CheckCloudwatch
